import Mathlib

/-!
Shallow embedding of the retrieval-and-answer-synthesis engine of the
RAG chatbot (source file: chatbot.py, class ChatBot).

Python strings are modelled as List Char.  Each helper below embeds one
Python string operation used by the source, and each definition named
after a ChatBot method is a line-by-line translation of that method.
-/

namespace RagBot

/-- The characters Python treats as whitespace for str.split(), str.strip()
and the regular-expression class backslash-s (ASCII range). -/
def isPySpace (c : Char) : Bool :=
  c == ' ' || c == '\t' || c == '\n' || c == '\r' || c == '\x0b' || c == '\x0c'

/-- A Python string literal as a list of characters. -/
def pyStr (s : String) : List Char := s.data

/-- Python str.lower(), character by character. -/
def pyLower (l : List Char) : List Char := l.map Char.toLower

/-- Python str.strip(): drop whitespace from both ends. -/
def pyStrip (l : List Char) : List Char :=
  ((l.dropWhile isPySpace).reverse.dropWhile isPySpace).reverse

/-- Python substring test (needle in haystack), true for the empty needle. -/
def containsSub (needle hay : List Char) : Bool :=
  hay.tails.any (fun t => needle.isPrefixOf t)

/-- Split at every character satisfying p, keeping empty pieces
(the semantics of re.split on a single-character class). -/
def splitOnPred (p : Char → Bool) (l : List Char) : List (List Char) :=
  l.foldr
    (fun c acc =>
      match acc with
      | [] => [[c]]
      | piece :: rest => if p c then [] :: piece :: rest else (c :: piece) :: rest)
    [[]]

/-- Python str.split() with no argument: split on whitespace runs,
dropping empty pieces. -/
def pySplitWs (l : List Char) : List (List Char) :=
  (splitOnPred isPySpace l).filter (fun s => !s.isEmpty)

/-- A sentence terminator of the regular expression [.!?]+ in the source. -/
def isSentenceEnd (c : Char) : Bool :=
  c == '.' || c == '!' || c == '?'

/-- re.split with pattern [.!?]+ : the pieces of the string lying between
maximal runs of sentence terminators (adjacent terminators act as one
delimiter, unlike the single-character split). -/
def splitSentenceEnds (l : List Char) : List (List Char) :=
  (l.foldr
    (fun c st =>
      if isSentenceEnd c then
        if st.2 then st else ([] :: st.1, true)
      else
        match st.1 with
        | [] => ([[c]], false)
        | piece :: rest => ((c :: piece) :: rest, false))
    ([[]], false)).1

/-- Python str.split(sep) for a non-empty separator: cut at each
left-to-right non-overlapping occurrence of sep, keeping empty pieces. -/
def pySplitOnAux (sep : List Char) : List Char → List Char → List (List Char)
  | [], acc => [acc.reverse]
  | c :: rest, acc =>
    if sep.isPrefixOf (c :: rest) then
      acc.reverse :: pySplitOnAux sep (rest.drop (sep.length - 1)) []
    else
      pySplitOnAux sep rest (c :: acc)
  termination_by l _ => l.length
  decreasing_by
    · simp only [List.length_drop, List.length_cons]; omega
    · simp only [List.length_cons]; omega

/-- Python str.split(sep); a guard keeps the function total on an empty
separator (the source only ever passes non-empty separators). -/
def pySplitOn (sep l : List Char) : List (List Char) :=
  if sep.isEmpty then [l] else pySplitOnAux sep l []

/-- re.sub with pattern backslash-s-plus replaced by a single space:
collapse every whitespace run to one space character. -/
def collapseWs (l : List Char) : List Char :=
  (l.foldr
    (fun c st =>
      if isPySpace c then
        if st.2 then st else (' ' :: st.1, true)
      else (c :: st.1, false))
    ([], false)).1

/-- Python str.endswith(('.', '!', '?')). -/
def endsWithTerm (l : List Char) : Bool :=
  match l.getLast? with
  | some c => c == '.' || c == '!' || c == '?'
  | none => false

/-- re.match with pattern caret [0-9]+ backslash-dot : one or more leading
digits followed by a period. -/
def startsNumDot (l : List Char) : Bool :=
  let ds := l.takeWhile Char.isDigit
  !ds.isEmpty && ((l.drop ds.length).head? == some '.')

/-! ## The answer synthesizer (ChatBot._format_answer and its helpers) -/

/-- ChatBot._clean_content: collapse whitespace, trim, ensure a terminal
punctuation mark, and cut long content back to its first three sentences. -/
def clean_content (content : List Char) : List Char :=
  let content := pyStrip (collapseWs content)
  let content :=
    if !content.isEmpty && !endsWithTerm content then content ++ ['.'] else content
  if 500 < content.length then
    List.intercalate (pyStr ". ") ((splitSentenceEnds content).take 3) ++ ['.']
  else content

/-- The three-character sequence the source compares against for a bullet
glyph (the literal written in chatbot.py line 142). -/
def bulletGlyph : List Char := pyStr "â€¢"

/-- The line scan of ChatBot._extract_list_format: fold over the lines of
the content, collecting numbered/bulleted lines verbatim, and for
colon-bearing lines of a types/applications query the comma-separated
items following the word include. -/
def list_items_of (query : List Char) (lines : List (List Char)) : List (List Char) :=
  lines.foldl
    (fun acc rawLine =>
      let line := pyStrip rawLine
      if startsNumDot line || (pyStr "-").isPrefixOf line || bulletGlyph.isPrefixOf line then
        acc ++ [line]
      else if line.contains ':' &&
          (containsSub (pyStr "types") query || containsSub (pyStr "applications") query) then
        if containsSub (pyStr "include") (pyLower line) then
          let parts := pySplitOn (pyStr "include") line
          if 1 < parts.length then
            acc ++ (pySplitOn [','] (parts.getD 1 [])).map
              (fun item => pyStr "- " ++ pyStrip item)
          else acc
        else acc
      else acc)
    []

/-- ChatBot._extract_list_format. -/
def extract_list_format (content query : List Char) : List Char :=
  let list_items := list_items_of query (pySplitOn ['\n'] content)
  if !list_items.isEmpty then
    List.intercalate ['\n'] list_items
  else
    match (splitSentenceEnds content).find?
        (fun s => s.contains ',' &&
          (containsSub (pyStr "include") (pyLower s) || containsSub (pyStr "are") (pyLower s))) with
    | some s => pyStrip s
    | none => clean_content content

/-- ChatBot._extract_definition (its query parameter is unused in the
source body and therefore omitted here). -/
def extract_definition (content : List Char) : List Char :=
  let sentences := splitSentenceEnds content
  match sentences.find?
      (fun s0 =>
        let s := pyStrip s0
        (containsSub (pyStr " is ") (pyLower s) || containsSub (pyStr " are ") (pyLower s)) &&
        (20 < s.length && !(pyStr "there").isPrefixOf (pyLower s))) with
  | some s => pyStrip s ++ ['.']
  | none =>
    match sentences.find? (fun s => 30 < (pyStrip s).length) with
    | some s => pyStrip s ++ ['.']
    | none => clean_content content

/-- The keyword list of ChatBot._extract_process. -/
def processKws : List (List Char) :=
  [pyStr "process", pyStr "method", pyStr "work", pyStr "function", pyStr "operate"]

/-- ChatBot._extract_process. -/
def extract_process (content : List Char) : List Char :=
  let relevant := (splitSentenceEnds content).filterMap
    (fun s0 =>
      let s := pyStrip s0
      if processKws.any (fun w => containsSub w (pyLower s)) then some s else none)
  if !relevant.isEmpty then
    List.intercalate (pyStr ". ") (relevant.take 2) ++ ['.']
  else clean_content content

/-- The list-intent trigger words of ChatBot._format_answer. -/
def listKws : List (List Char) :=
  [pyStr "types", pyStr "list", pyStr "applications", pyStr "kinds", pyStr "examples"]

/-- The definition-intent trigger words of ChatBot._format_answer. -/
def defKws : List (List Char) :=
  [pyStr "what is", pyStr "define", pyStr "definition", pyStr "meaning"]

/-- ChatBot._format_answer: rule-based intent dispatch in source order
(list, then definition, then a query whose lowercasing starts with how,
then generic cleanup). -/
def format_answer (query content : List Char) : List Char :=
  let query_lower := pyLower query
  if listKws.any (fun w => containsSub w query_lower) then
    extract_list_format content query_lower
  else if defKws.any (fun w => containsSub w query_lower) then
    extract_definition content
  else if (pyStr "how").isPrefixOf query_lower then
    extract_process content
  else
    clean_content content

/-! ## The keyword retriever (ChatBot._keyword_search_with_context) -/

/-- The keyword set: lowercase query words longer than two characters. -/
def query_words_of (query_lower : List Char) : List (List Char) :=
  (pySplitWs query_lower).filter (fun w => 2 < w.length)

/-- The sentence list the retriever scores: split the document text on
sentence terminators, strip each piece, drop the empty ones. -/
def sentences_of (full_text : List Char) : List (List Char) :=
  ((splitSentenceEnds full_text).map pyStrip).filter (fun s => !s.isEmpty)

/-- The per-sentence score: one point per keyword occurring as a substring
of the lowercased sentence, plus a two-point bonus when the sentence
contains the whole lowercased query or the first two keywords joined by a
space. -/
def sentence_score (query_lower : List Char) (query_words : List (List Char))
    (sentence : List Char) : Nat :=
  let sentence_lower := pyLower sentence
  let score := (query_words.filter (fun w => containsSub w sentence_lower)).length
  if containsSub query_lower sentence_lower ||
      containsSub (List.intercalate [' '] (query_words.take 2)) sentence_lower then
    score + 2
  else score

/-- The scored sentence triples (score, index, sentence) in document
order, exactly the sentence_scores list of the source. -/
def sentence_scores_of (full_text query_lower : List Char) : List (Nat × Nat × List Char) :=
  (sentences_of full_text).enum.map
    (fun p => (sentence_score query_lower (query_words_of query_lower) p.2, p.1, p.2))

/-- The source sorts sentence_scores with list.sort(reverse=True, key =
score), a stable descending sort.  On a list whose middle components (the
enumeration indices) are strictly increasing and therefore pairwise
distinct, the stable descending sort by score coincides with sorting by
the antisymmetric total order below: score descending, then original
index ascending; a sorted permutation is unique for such an order, so
any correct sort realizes it. -/
def scoreOrder (a b : Nat × Nat × List Char) : Prop :=
  b.1 < a.1 ∨ (a.1 = b.1 ∧ a.2.1 ≤ b.2.1)

instance : DecidableRel scoreOrder := fun a b => by
  unfold scoreOrder
  infer_instance

instance : IsTotal (Nat × Nat × List Char) scoreOrder :=
  ⟨fun a b => by
    unfold scoreOrder
    omega⟩

instance : IsTrans (Nat × Nat × List Char) scoreOrder :=
  ⟨fun a b c hab hbc => by
    unfold scoreOrder at hab hbc ⊢
    omega⟩

/-- The sort of the sentence_scores list (see scoreOrder). -/
def sortDescByScore (l : List (Nat × Nat × List Char)) : List (Nat × Nat × List Char) :=
  List.insertionSort scoreOrder l

/-- One iteration of the selection loop of the source: keep a triple with
positive score, prepend the previous sentence when nothing has been
selected yet, and append the next sentence when it contains a keyword. -/
def pick_step (query_words sentences : List (List Char))
    (acc : List (List Char)) (t : Nat × Nat × List Char) : List (List Char) :=
  if 0 < t.1 then
    let idx := t.2.1
    let acc1 :=
      if 0 < idx && acc.isEmpty then acc ++ [sentences.getD (idx - 1) []] else acc
    let acc2 := acc1 ++ [t.2.2]
    if idx < sentences.length - 1 then
      let next := sentences.getD (idx + 1) []
      if query_words.any (fun w => containsSub w (pyLower next)) then acc2 ++ [next]
      else acc2
    else acc2
  else acc

/-- The selection loop of the source over the top three scored triples. -/
def pick_relevant (query_words : List (List Char)) (sentences : List (List Char))
    (top : List (Nat × Nat × List Char)) : List (List Char) :=
  top.foldl (pick_step query_words sentences) []

/-- ChatBot._keyword_search_with_context. -/
def keyword_search_with_context (full_text query_lower : List Char) : List Char :=
  let query_words := query_words_of query_lower
  let sentences := sentences_of full_text
  let sorted := sortDescByScore (sentence_scores_of full_text query_lower)
  let relevant := pick_relevant query_words sentences (sorted.take 3)
  if relevant.isEmpty then full_text.take 1000
  else List.intercalate (pyStr ". ") (relevant.take 4) ++ ['.']

/-! ## The engine (class ChatBot: state, construction, per-query pipeline)

The embedding model and the faiss index are external capabilities; their
behaviour at each call site of the source, including the possibility of
raising, is supplied by oracle records, one for construction and one per
query.  Everything these collaborators could throw is a PyExc. -/

/-- A Python exception crossing a call boundary; its identity is
irrelevant to every claim. -/
inductive PyExc where
  | raised : PyExc
deriving DecidableEq

instance {ε α : Type} [DecidableEq ε] [DecidableEq α] : DecidableEq (Except ε α) :=
  fun x y =>
    match x, y with
    | .ok a, .ok b =>
      if h : a = b then isTrue (by rw [h]) else isFalse (fun hc => h (Except.ok.inj hc))
    | .error a, .error b =>
      if h : a = b then isTrue (by rw [h]) else isFalse (fun hc => h (Except.error.inj hc))
    | .ok _, .error _ => isFalse (fun hc => Except.noConfusion hc)
    | .error _, .ok _ => isFalse (fun hc => Except.noConfusion hc)

/-- The faiss.IndexFlatL2 object, abstracted to the dimension it was
constructed with (its contents are only consulted through the search
oracle). -/
structure VectorIndex where
  dimension : Nat
deriving DecidableEq

/-- The engine state: the attributes ChatBot.__init__ stores on self.
The index attribute is absent (none) until the source assigns it. -/
structure ChatBot where
  document_chunks : List (List Char)
  full_text : List Char
  index : Option VectorIndex
  use_vector_search : Bool
deriving DecidableEq

/-- The external outcomes during ChatBot.__init__: the embedding call
(its result abstracted to the matrix column dimension) and the
index.add call, each of which may raise. -/
structure InitOracle where
  encode_chunks : Except PyExc Nat
  add_outcome : Option PyExc

/-- ChatBot.__init__ together with _create_vector_store: join the chunks
with a space; when there is more than one chunk, try to build the index
(on an encode failure the index attribute is never assigned; on an add
failure it is already assigned but use_vector_search stays false). -/
def mkChatBot (document_chunks : List (List Char)) (env : InitOracle) : ChatBot :=
  let full_text := List.intercalate [' '] document_chunks
  if 1 < document_chunks.length then
    match env.encode_chunks with
    | .error _ => ⟨document_chunks, full_text, none, false⟩
    | .ok dim =>
      match env.add_outcome with
      | some _ => ⟨document_chunks, full_text, some ⟨dim⟩, false⟩
      | none => ⟨document_chunks, full_text, some ⟨dim⟩, true⟩
  else ⟨document_chunks, full_text, none, false⟩

/-- The external outcomes during one get_response call: the query
embedding plus index search (abstracted to the returned row of chunk
indices, or a raise), and two injection points standing for an arbitrary
runtime exception inside keyword retrieval and inside answer synthesis
(none means that step runs normally; the source code of those steps is
itself total). -/
structure QueryOracle where
  vector_hits : Except PyExc (List Nat)
  kw_outcome : Option PyExc
  synth_outcome : Option PyExc

/-- The keyword-retrieval step as get_response sees it: either the
injected exception propagates, or _keyword_search_with_context runs. -/
def keyword_step (bot : ChatBot) (env : QueryOracle) (query_lower : List Char) :
    Except PyExc (List Char) :=
  match env.kw_outcome with
  | some e => .error e
  | none => .ok (keyword_search_with_context bot.full_text query_lower)

/-- ChatBot._find_relevant_content: when vector search is enabled, look
up the hit chunks; any exception inside that try block (a raise from
encode/search, or an out-of-range chunk index) is swallowed by the bare
except and control falls through to keyword retrieval, which runs
outside the try block. -/
def find_relevant_content (bot : ChatBot) (env : QueryOracle) (query : List Char) :
    Except PyExc (List Char) :=
  let query_lower := pyLower query
  if bot.use_vector_search then
    match env.vector_hits with
    | .ok hits =>
      match hits.mapM (fun i => bot.document_chunks.get? i) with
      | some chunks => .ok (List.intercalate [' '] chunks)
      | none => keyword_step bot env query_lower
    | .error _ => keyword_step bot env query_lower
  else keyword_step bot env query_lower

/-- The fixed apology returned for an empty or too-short answer. -/
def apology_message : List Char :=
  pyStr "I couldn't find relevant information to answer your question. Try rephrasing or asking about different aspects of the document."

/-- The fixed message returned by the catch-all exception handler. -/
def error_message : List Char :=
  pyStr "I encountered an error while processing your question. Please try again with a different question."

/-- The body of the try block of ChatBot.get_response before its final
guard: retrieval followed by synthesis, each able to raise. -/
def pipeline (bot : ChatBot) (env : QueryOracle) (question : List Char) :
    Except PyExc (List Char) :=
  match find_relevant_content bot env question with
  | .error e => .error e
  | .ok relevant =>
    match env.synth_outcome with
    | some e => .error e
    | none => .ok (format_answer question relevant)

/-- ChatBot.get_response as a possibly-raising function: the try block
runs retrieval then synthesis, guards the answer length, and the
except handler converts any raise into the fixed error message (the
handler itself only returns a literal, so it cannot raise). -/
def get_response (bot : ChatBot) (env : QueryOracle) (question : List Char) :
    Except PyExc (List Char) :=
  match pipeline bot env question with
  | .ok answer =>
    if answer.isEmpty || decide ((pyStrip answer).length < 5) then .ok apology_message
    else .ok answer
  | .error _ => .ok error_message

/-- get_response with the engine state threaded through the call: no
statement of get_response or of any helper it calls assigns to self, so
the state passed on is the state that came in. -/
def get_response_st (bot : ChatBot) (env : QueryOracle) (question : List Char) :
    List Char × ChatBot :=
  match get_response bot env question with
  | .ok answer => (answer, bot)
  | .error _ => ([], bot)

/-! ## Helper lemmas -/

/-- The empty needle is a substring of every string (the Python semantics
of the in operator on strings). -/
theorem containsSub_nil (hay : List Char) : containsSub [] hay = true := by
  cases hay with
  | nil => rfl
  | cons c cs =>
    simp only [containsSub, List.tails, List.any_cons, List.isPrefixOf, Bool.true_or]

/-- If every element of a list falsifies p, then any p is false. -/
theorem any_eq_false_of_all_not {α : Type} (l : List α) (p : α → Bool)
    (h : l.all (fun x => !p x) = true) : l.any p = false := by
  simp only [List.all_eq_true, Bool.not_eq_true'] at h
  simp only [List.any_eq_false]
  intro x hx
  simp [h x hx]

/-- get_response never stores anything: the threaded state is returned
as it came in. -/
theorem get_response_st_snd (bot : ChatBot) (env : QueryOracle) (question : List Char) :
    (get_response_st bot env question).2 = bot := by
  unfold get_response_st
  cases get_response bot env question <;> rfl

/-- The selection loop ignores every triple whose score is zero. -/
theorem foldl_pick_step_zero (query_words sentences : List (List Char)) :
    ∀ (top : List (Nat × Nat × List Char)) (acc : List (List Char)),
      (∀ t ∈ top, t.1 = 0) → top.foldl (pick_step query_words sentences) acc = acc := by
  intro top
  induction top with
  | nil => intro acc _; rfl
  | cons t ts ih =>
    intro acc h
    have ht : t.1 = 0 := h t (List.mem_cons_self t ts)
    have hstep : pick_step query_words sentences acc t = acc := by
      unfold pick_step
      rw [ht]
      simp
    rw [List.foldl_cons, hstep]
    exact ih acc (fun u hu => h u (List.mem_cons_of_mem t hu))

/-! ## The claims -/

/-- C1: for every query string, get_response returns a string and never
raises: whatever the external calls raise (vector search, keyword
retrieval, synthesis), the result is an ok value, never a propagated
exception. -/
theorem get_response_never_raises (bot : ChatBot) (env : QueryOracle) (question : List Char) :
    ∃ answer, get_response bot env question = Except.ok answer := by
  unfold get_response
  cases pipeline bot env question with
  | ok answer =>
    by_cases hc : (answer.isEmpty || decide ((pyStrip answer).length < 5)) = true
    · exact ⟨apology_message, by simp [hc]⟩
    · exact ⟨answer, by simp [hc]⟩
  | error e => exact ⟨error_message, rfl⟩

/-- C4: intent dispatch is first-match-wins in source order: a query
containing both the word list and the phrase what is takes the
list-intent branch, not the definition branch. -/
theorem format_answer_list_priority (query content : List Char)
    (h1 : containsSub (pyStr "list") (pyLower query) = true)
    (_h2 : containsSub (pyStr "what is") (pyLower query) = true) :
    format_answer query content = extract_list_format content (pyLower query) := by
  unfold format_answer
  have hl : listKws.any (fun w => containsSub w (pyLower query)) = true := by
    simp only [List.any_eq_true]
    exact ⟨pyStr "list", by simp [listKws], h1⟩
  simp [hl]

/-- Witness for C4 at a concrete query and content. -/
theorem format_answer_list_priority_witness :
    format_answer (pyStr "list what is x") (pyStr "a, b are fine") =
      extract_list_format (pyStr "a, b are fine") (pyLower (pyStr "list what is x")) :=
  format_answer_list_priority _ _ (by decide) (by decide)

/-- C7: after construction, the vector index exists with vector search
enabled exactly when there is more than one chunk and neither the
embedding call nor the index.add call failed; a single-chunk document
never enables vector search and every query is answered by keyword
retrieval. -/
theorem mkChatBot_vector_index_iff (chunks : List (List Char)) (env : InitOracle) :
    (((mkChatBot chunks env).index.isSome = true ∧
        (mkChatBot chunks env).use_vector_search = true) ↔
      (1 < chunks.length ∧ env.encode_chunks.isOk = true ∧ env.add_outcome = none))
    ∧ (chunks.length = 1 →
        (mkChatBot chunks env).use_vector_search = false ∧
        ∀ qenv query, find_relevant_content (mkChatBot chunks env) qenv query =
          keyword_step (mkChatBot chunks env) qenv (pyLower query)) := by
  constructor
  · unfold mkChatBot
    by_cases hlen : 1 < chunks.length
    · simp only [if_pos hlen]
      cases henc : env.encode_chunks with
      | error e => simp [Except.isOk, Except.toBool]
      | ok dim =>
        cases hadd : env.add_outcome with
        | some e => simp [hadd, Except.isOk, Except.toBool]
        | none => simp [hadd, hlen, Except.isOk, Except.toBool]
    · simp [if_neg hlen, hlen]
  · intro h1
    have hlen : ¬ 1 < chunks.length := by omega
    have hflag : (mkChatBot chunks env).use_vector_search = false := by
      unfold mkChatBot
      simp [if_neg hlen]
    refine ⟨hflag, fun qenv query => ?_⟩
    unfold find_relevant_content
    simp [hflag]

/-- Witness for C7 on a concrete single-chunk document. -/
theorem mkChatBot_vector_index_iff_witness :
    (mkChatBot [pyStr "only chunk"] ⟨Except.ok 3, none⟩).use_vector_search = false ∧
    find_relevant_content (mkChatBot [pyStr "only chunk"] ⟨Except.ok 3, none⟩)
        ⟨Except.ok [0], none, none⟩ (pyStr "Q") =
      keyword_step (mkChatBot [pyStr "only chunk"] ⟨Except.ok 3, none⟩)
        ⟨Except.ok [0], none, none⟩ (pyLower (pyStr "Q")) := by
  have h := (mkChatBot_vector_index_iff [pyStr "only chunk"] ⟨Except.ok 3, none⟩).2 (by decide)
  exact ⟨h.1, h.2 _ _⟩

/-- C8: get_response is deterministic and idempotent at the observation
level: a second call with the same query on the state left by the first
call (under the same external embedding/index behaviour) returns the
identical answer string. -/
theorem get_response_idempotent (bot : ChatBot) (env : QueryOracle) (question : List Char) :
    (get_response_st (get_response_st bot env question).2 env question).1 =
      (get_response_st bot env question).1 := by
  rw [get_response_st_snd]

/-- C10: get_response never mutates engine state: the chunk collection,
the joined full text, the vector index and the use_vector_search flag
are unchanged by any call. -/
theorem get_response_frame (bot : ChatBot) (env : QueryOracle) (question : List Char) :
    (get_response_st bot env question).2.document_chunks = bot.document_chunks ∧
    (get_response_st bot env question).2.full_text = bot.full_text ∧
    (get_response_st bot env question).2.index = bot.index ∧
    (get_response_st bot env question).2.use_vector_search = bot.use_vector_search := by
  rw [get_response_st_snd]
  exact ⟨rfl, rfl, rfl, rfl⟩

set_option maxRecDepth 20000 in
/-- C9: when the synthesized answer is empty or trims to fewer than five
characters, get_response substitutes the fixed apology; consequently
every string get_response returns is non-empty and trims to at least
five characters. -/
theorem get_response_length_guard (bot : ChatBot) (env : QueryOracle) (question : List Char) :
    (∀ relevant, find_relevant_content bot env question = Except.ok relevant →
      env.synth_outcome = none →
      (format_answer question relevant = [] ∨
        (pyStrip (format_answer question relevant)).length < 5) →
      get_response bot env question = Except.ok apology_message)
    ∧ ∀ answer, get_response bot env question = Except.ok answer →
        answer ≠ [] ∧ 5 ≤ (pyStrip answer).length := by
  constructor
  · intro relevant hrel hsynth hshort
    have hcond : ((format_answer question relevant).isEmpty ||
        decide ((pyStrip (format_answer question relevant)).length < 5)) = true := by
      rcases hshort with h | h
      · simp [h]
      · simp [h]
    unfold get_response pipeline
    rw [hrel, hsynth]
    simp [hcond]
  · intro answer hans
    unfold get_response at hans
    split at hans
    · rename_i a heq
      by_cases hc : (a.isEmpty || decide ((pyStrip a).length < 5)) = true
      · rw [if_pos hc] at hans
        cases hans
        exact ⟨by decide, by decide⟩
      · rw [if_neg hc] at hans
        rw [Bool.or_eq_true] at hc
        push_neg at hc
        cases hans
        refine ⟨?_, ?_⟩
        · intro hnil
          rw [hnil] at hc
          simp at hc
        · by_contra hlt
          exact hc.2 (decide_eq_true (by omega))
    · cases hans
      exact ⟨by decide, by decide⟩

set_option maxRecDepth 20000 in
/-- Witness for C9: a two-character document makes the synthesized
answer trim below five characters, and the apology comes back. -/
theorem get_response_length_guard_witness :
    get_response (mkChatBot [pyStr "hi"] ⟨Except.ok 0, none⟩)
        ⟨Except.ok [], none, none⟩ (pyStr "xyz") = Except.ok apology_message ∧
    apology_message ≠ [] ∧ 5 ≤ (pyStrip apology_message).length := by
  have h := get_response_length_guard (mkChatBot [pyStr "hi"] ⟨Except.ok 0, none⟩)
    ⟨Except.ok [], none, none⟩ (pyStr "xyz")
  have h1 := h.1 (pyStr "hi") (by decide) rfl (by decide)
  exact ⟨h1, h.2 apology_message h1⟩

/-- C2 counterexample: with an empty keyword set the sentences do not all
score zero; the join of the first two keywords is the empty string, it is
a substring of every sentence, and the two-point phrase bonus fires. -/
theorem empty_keywords_zero_counterexample :
    ¬ (∀ full_text query_lower, query_words_of query_lower = [] →
        ∀ t ∈ sentence_scores_of full_text query_lower, t.1 = 0) := by
  intro h
  have h2 := h (pyStr "hello world") (pyStr "ab") (by decide)
    (2, 0, pyStr "hello world") (by decide)
  exact absurd h2 (by decide)

/-- C2 as amended: if the query has no lowercase word longer than two
characters, every sentence receives score exactly two, for every
document text. -/
theorem empty_keywords_score_two (full_text query_lower : List Char)
    (h : query_words_of query_lower = []) :
    ∀ t ∈ sentence_scores_of full_text query_lower, t.1 = 2 := by
  intro t ht
  unfold sentence_scores_of at ht
  rw [h] at ht
  simp only [List.mem_map] at ht
  obtain ⟨p, _, rfl⟩ := ht
  unfold sentence_score
  have h0 : containsSub (List.intercalate [' '] ([] : List (List Char)))
      (pyLower p.2) = true := by
    rw [show List.intercalate [' '] ([] : List (List Char)) = [] from rfl]
    exact containsSub_nil _
  simp [h0]

/-- Witness for C2 as amended, at a concrete query and document. -/
theorem empty_keywords_score_two_witness :
    query_words_of (pyStr "ab") = [] ∧
    ∀ t ∈ sentence_scores_of (pyStr "hello world") (pyStr "ab"), t.1 = 2 :=
  ⟨by decide, empty_keywords_score_two (pyStr "hello world") (pyStr "ab") (by decide)⟩

/-- C3 counterexample: the source never trims the query before the
startswith test, so a query with a leading space whose trimmed form
starts with how is not sent to the process branch. -/
theorem process_branch_trim_counterexample :
    ¬ (∀ query content,
        listKws.all (fun w => !containsSub w (pyLower query)) = true →
        defKws.all (fun w => !containsSub w (pyLower query)) = true →
        (((pyStr "how").isPrefixOf (pyStrip (pyLower query)) = true) ↔
          format_answer query content = extract_process content)) := by
  intro h
  have h2 := (h (pyStr " how") (pyStr "The work. More text here")
    (by decide) (by decide)).mp (by decide)
  exact absurd h2 (by decide)

/-- C3 as amended: for a query matching no list keyword and no definition
keyword, the synthesizer takes the process branch exactly when the
lowercased query starts with how without any trimming. -/
theorem process_branch_no_trim (query content : List Char)
    (h1 : listKws.all (fun w => !containsSub w (pyLower query)) = true)
    (h2 : defKws.all (fun w => !containsSub w (pyLower query)) = true) :
    format_answer query content =
      if (pyStr "how").isPrefixOf (pyLower query) then extract_process content
      else clean_content content := by
  simp only [format_answer]
  rw [any_eq_false_of_all_not _ _ h1, any_eq_false_of_all_not _ _ h2]
  simp

/-- Witness for C3 as amended, at a concrete query and content. -/
theorem process_branch_no_trim_witness :
    format_answer (pyStr "how") (pyStr "ok") =
      if (pyStr "how").isPrefixOf (pyLower (pyStr "how")) then extract_process (pyStr "ok")
      else clean_content (pyStr "ok") :=
  process_branch_no_trim (pyStr "how") (pyStr "ok") (by decide) (by decide)

/-- C5: with a non-empty keyword set, if no sentence scores above zero
then keyword retrieval returns the first 1000 characters of the full
document text. -/
theorem keyword_fallback_first_1000 (full_text query_lower : List Char)
    (_hkw : query_words_of query_lower ≠ [])
    (hzero : ∀ t ∈ sentence_scores_of full_text query_lower, t.1 = 0) :
    keyword_search_with_context full_text query_lower = full_text.take 1000 := by
  have hz3 : ∀ t ∈ (sortDescByScore (sentence_scores_of full_text query_lower)).take 3,
      t.1 = 0 := by
    intro t ht
    have h1 : t ∈ sortDescByScore (sentence_scores_of full_text query_lower) :=
      List.mem_of_mem_take ht
    have h2 : t ∈ sentence_scores_of full_text query_lower :=
      (List.perm_insertionSort scoreOrder _).mem_iff.mp h1
    exact hzero t h2
  have hnil : pick_relevant (query_words_of query_lower) (sentences_of full_text)
      ((sortDescByScore (sentence_scores_of full_text query_lower)).take 3) = [] :=
    foldl_pick_step_zero _ _ _ [] hz3
  simp only [keyword_search_with_context]
  rw [hnil]
  rfl

/-- Witness for C5 at a concrete query and document with no keyword hit. -/
theorem keyword_fallback_first_1000_witness :
    keyword_search_with_context (pyStr "Hello world. Nice day") (pyStr "zebra") =
      (pyStr "Hello world. Nice day").take 1000 :=
  keyword_fallback_first_1000 _ _ (by decide) (by decide)

/-- C6: the sort of the scored sentences is a permutation of them that is
ordered by score descending, and two sentences of equal score keep the
document order, earlier index first (the stable descending sort). -/
theorem sort_stable_desc (full_text query_lower : List Char) :
    (sortDescByScore (sentence_scores_of full_text query_lower)).Perm
      (sentence_scores_of full_text query_lower) ∧
    (sortDescByScore (sentence_scores_of full_text query_lower)).Pairwise
      (fun a b => b.1 < a.1 ∨ (a.1 = b.1 ∧ a.2.1 < b.2.1)) := by
  have hperm := List.perm_insertionSort scoreOrder (sentence_scores_of full_text query_lower)
  refine ⟨hperm, ?_⟩
  have hsorted : (sortDescByScore (sentence_scores_of full_text query_lower)).Pairwise
      scoreOrder := List.sorted_insertionSort scoreOrder _
  have hidx : ((sentence_scores_of full_text query_lower).map (fun t => t.2.1)).Nodup := by
    unfold sentence_scores_of
    rw [List.map_map]
    have hcomp : ((fun t : Nat × Nat × List Char => t.2.1) ∘
        (fun p : Nat × List Char =>
          (sentence_score query_lower (query_words_of query_lower) p.2, p.1, p.2))) =
        Prod.fst := rfl
    rw [hcomp, List.enum_map_fst]
    exact List.nodup_range _
  have hnd : ((sortDescByScore (sentence_scores_of full_text query_lower)).map
      (fun t => t.2.1)).Nodup := (hperm.map (fun t => t.2.1)).nodup_iff.mpr hidx
  have hpne : (sortDescByScore (sentence_scores_of full_text query_lower)).Pairwise
      (fun a b => a.2.1 ≠ b.2.1) := List.pairwise_map.mp hnd
  refine (hsorted.and hpne).imp ?_
  intro a b hab
  obtain ⟨hord, hne⟩ := hab
  unfold scoreOrder at hord
  omega

end RagBot
